import Mathlib

/-!
Shallow embedding of the sensor-data ingestion pipeline of
`sensor_collector.py` (classes `DatabaseStorage`, `FlexibleDatabaseStorage`
and `SensorDataCollector`), together with theorems settling the frozen
claims about its specification.

Modelling conventions:
* PostgreSQL tables become Lean lists of row structures; `INSERT` appends,
  the `ON CONFLICT DO UPDATE` upsert maps over the list, `SELECT ... WHERE`
  is `List.find?`.  No table constraint beyond the `device_id` key used by
  the upsert appears anywhere in the repository, so none is modelled.
* Python exceptions become `Except String`; a `try/except` block becomes a
  `match` on the `Except` value that restores the pre-`try` state (the
  database rollback discards exactly the uncommitted inserts).
* A backend failure during the measurement-insert transaction of one sink
  is modelled by the `failAppend` flag of that sink.
* Numeric JSON values are modelled by `Int`; a JSON value that
  `datetime.fromtimestamp` rejects (e.g. a string) is `TsVal.nonNum`.
* `msg.topic.split('/')` is re-implemented character-by-character as
  `topicParts` so that concrete topics evaluate inside the kernel.
-/

namespace SensorCollector

/-- Free-form per-sensor metadata: a JSON object modelled as key/value pairs
(the Python dict passed as `metadata.get(sensor_type, {})`). -/
abbrev Meta := List (String × String)

/-- A JSON value in a `timestamp` position: either numeric (accepted by
`datetime.datetime.fromtimestamp`) or non-numeric (raises `TypeError`). -/
inductive TsVal where
  | num (t : Int)
  | nonNum
deriving DecidableEq, Repr

/-- One metric entry of a data payload's `value` mapping: the handler only
reads `field_data.get('reading')`. -/
structure FieldData where
  reading : Option Int
deriving DecidableEq, Repr

/-- The JSON `value` field of a payload, as the three handlers read it:
a mapping metric-name to field-data (sensor data), an error object
(error messages), a plain string (status), or absent. -/
inductive ValueField where
  | map (metrics : List (String × FieldData))
  | errObj (error_type : Option String) (message : Option String) (severity : Option Int)
  | str (s : String)
  | absent
deriving DecidableEq, Repr

/-- A decoded JSON payload, projected to the fields the handlers access via
`payload.get(...)`; an absent key is `none` / `[]` / `.absent`. -/
structure Payload where
  device_name : Option String
  firmware_version : Option String
  device_location : Option String
  sensors : List String
  metadata : List (String × Meta)
  timestamp : Option TsVal
  value : ValueField
deriving DecidableEq, Repr

/-- A payload with every field absent. -/
def emptyPayload : Payload := ⟨none, none, none, [], [], none, .absent⟩

/-- The result of `datetime.datetime.fromtimestamp(t, tz=datetime.timezone.utc)`:
an absolute UTC instant, determined by the epoch value. -/
structure UTCTime where
  epoch : Int
deriving DecidableEq, Repr

/-- `datetime.datetime.fromtimestamp(v, tz=utc)`: numeric epoch values give
the corresponding absolute UTC time, anything else raises `TypeError`. -/
def fromtimestamp : TsVal → Except String UTCTime
  | .num t => .ok ⟨t⟩
  | .nonNum => .error "TypeError"

/-- `datetime.datetime.fromtimestamp(payload.get('timestamp', time.time()), tz=utc)`:
the device timestamp when present, the current processing time otherwise. -/
def normalizeTs (ts : Option TsVal) (now : Int) : Except String UTCTime :=
  fromtimestamp (ts.getD (.num now))

/-- One row of the `devices` table. -/
structure DeviceRow where
  device_id : String
  device_name : Option String
  location : Option String
  firmware_version : Option String
deriving DecidableEq, Repr

/-- One row of the `sensors` table; `metadata` is `none` for SQL `NULL`
(the code stores `NULL` when the announced metadata dict is empty). -/
structure SensorRow where
  sensor_id : Nat
  device_id : String
  sensor_type : String
  location : String
  metadata : Option Meta
deriving DecidableEq, Repr

/-- One row of the `measurements` table. -/
structure MeasurementRow where
  time : UTCTime
  sensor_id : Nat
  metric_type : String
  value : Int
deriving DecidableEq, Repr

/-- The state of one storage sink (`DatabaseStorage` instance plus the
tables of the database it writes to).  `nextId` models the `sensor_id`
serial; `failAppend` models a backend that errors inside the
measurement-insert transaction of `store_sensor_data`. -/
structure Sink where
  devices : List DeviceRow
  sensors : List SensorRow
  measurements : List MeasurementRow
  cache : List (String × Nat)
  nextId : Nat
  failAppend : Bool
deriving DecidableEq, Repr

/-- A freshly constructed sink over an empty database. -/
def emptySink : Sink := ⟨[], [], [], [], 1, false⟩

/-- A sink over an empty database whose measurement-append transaction fails. -/
def failingSink : Sink := ⟨[], [], [], [], 1, true⟩

/-- Python dict lookup `d.get(k)` for string-keyed dicts kept as pair lists. -/
def assocLookup {β : Type} (l : List (String × β)) (k : String) : Option β :=
  (l.find? (fun e => e.1 == k)).map (fun e => e.2)

/-- Python dict assignment `d[k] = v` (replace when present, append when not). -/
def assocUpsert {β : Type} (l : List (String × β)) (k : String) (v : β) : List (String × β) :=
  if l.any (fun e => e.1 == k) then l.map (fun e => if e.1 == k then (k, v) else e)
  else l ++ [(k, v)]

/-- The cache key `f"{device_id}_{sensor_type}"`. -/
def cacheKey (device_id sensor_type : String) : String :=
  device_id ++ "_" ++ sensor_type

/-- The `WHERE device_id = %s AND sensor_type = %s` predicate on sensor rows. -/
def sensorMatches (device_id sensor_type : String) (r : SensorRow) : Bool :=
  r.device_id == device_id && r.sensor_type == sensor_type

/-- `SELECT sensor_id FROM sensors WHERE device_id = %s AND sensor_type = %s`. -/
def storeLookup (rows : List SensorRow) (device_id sensor_type : String) : Option Nat :=
  (rows.find? (sensorMatches device_id sensor_type)).map (fun r => r.sensor_id)

/-- `DatabaseStorage.ensure_device_exists`: upsert of the `devices` row keyed
by `device_id` (`INSERT ... ON CONFLICT (device_id) DO UPDATE`). -/
def ensure_device_exists (s : Sink) (device_id : String) (p : Payload) : Sink :=
  let row : DeviceRow := ⟨device_id, p.device_name, p.device_location, p.firmware_version⟩
  if s.devices.any (fun r => r.device_id == device_id) then
    { s with devices := s.devices.map (fun r => if r.device_id == device_id then row else r) }
  else
    { s with devices := s.devices ++ [row] }

/-- `metadata.get(sensor_type, {})`. -/
def metaFor (metadata : List (String × Meta)) (sensor_type : String) : Meta :=
  (assocLookup metadata sensor_type).getD []

/-- `DatabaseStorage.ensure_sensor_exists`: select the `(device_id,
sensor_type)` row; when absent insert it (location from the announced
metadata, default `"unknown"`; stored metadata `NULL` when the dict is
empty); in both cases record the id in the cache under
`f"{device_id}_{sensor_type}"`. -/
def ensure_sensor_exists (s : Sink) (device_id sensor_type : String)
    (metadata : List (String × Meta)) : Sink :=
  match storeLookup s.sensors device_id sensor_type with
  | some sid =>
    { s with cache := assocUpsert s.cache (cacheKey device_id sensor_type) sid }
  | none =>
    let sensor_meta := metaFor metadata sensor_type
    let location := (assocLookup sensor_meta "location").getD "unknown"
    let md : Option Meta := if sensor_meta.isEmpty then none else some sensor_meta
    { s with
      sensors := s.sensors ++ [⟨s.nextId, device_id, sensor_type, location, md⟩],
      nextId := s.nextId + 1,
      cache := assocUpsert s.cache (cacheKey device_id sensor_type) s.nextId }

/-- `DatabaseStorage.get_sensor_id`: cache first, database second, caching a
positive database answer; `none` for a double miss. -/
def get_sensor_id (s : Sink) (device_id sensor_type : String) : Option Nat × Sink :=
  match assocLookup s.cache (cacheKey device_id sensor_type) with
  | some sid => (some sid, s)
  | none =>
    match storeLookup s.sensors device_id sensor_type with
    | some sid =>
      (some sid, { s with cache := assocUpsert s.cache (cacheKey device_id sensor_type) sid })
    | none => (none, s)

/-- The measurement rows inserted for one data payload: one row per metric
whose `reading` is non-null. -/
def mkRows (ts : UTCTime) (sid : Nat) (values : List (String × FieldData)) :
    List MeasurementRow :=
  values.filterMap (fun fv => fv.2.reading.map (fun r => ⟨ts, sid, fv.1, r⟩))

/-- The measurement-insert transaction of `store_sensor_data`: on a backend
error (`failAppend`) the transaction is rolled back, leaving the
`measurements` table unchanged; otherwise all rows are committed. -/
def appendMeasurements (s : Sink) (sid : Nat) (ts : UTCTime)
    (values : List (String × FieldData)) : Sink :=
  if s.failAppend then s
  else { s with measurements := s.measurements ++ mkRows ts sid values }

/-- `FlexibleDatabaseStorage.store_sensor_data`: resolve the sensor id via
`get_sensor_id`; on a miss auto-create the sensor with empty metadata
(`ensure_sensor_exists(device_id, sensor_type, {})`) and resolve again; on a
second miss log and discard; otherwise run the insert transaction. -/
def store_sensor_data (s : Sink) (device_id sensor_type : String) (ts : UTCTime)
    (values : List (String × FieldData)) : Sink :=
  match get_sensor_id s device_id sensor_type with
  | (some sid, s1) => appendMeasurements s1 sid ts values
  | (none, s1) =>
    let s2 := ensure_sensor_exists s1 device_id sensor_type []
    match get_sensor_id s2 device_id sensor_type with
    | (some sid, s3) => appendMeasurements s3 sid ts values
    | (none, s3) => s3

/-- The state of a `SensorDataCollector`: the `self.devices` capability
dict, the registered storage handlers, and the reconnection fields. -/
structure Collector where
  devices : List (String × Payload)
  sinks : List Sink
  reconnect_delay : Nat
  connected : Bool
deriving DecidableEq, Repr

/-- A collector over the given sinks in its initial state
(`reconnect_delay = 5`, not connected). -/
def mkCollector (sinks : List Sink) : Collector := ⟨[], sinks, 5, false⟩

/-- `SensorDataCollector.handle_capabilities`: record the payload in
`self.devices`, register the device in every storage handler, then for
every declared sensor kind register the sensor in every storage handler. -/
def handle_capabilities (c : Collector) (device_id : String) (p : Payload) : Collector :=
  let c1 := { c with devices := assocUpsert c.devices device_id p }
  let c2 := { c1 with sinks := c1.sinks.map (fun h => ensure_device_exists h device_id p) }
  { c2 with
    sinks := p.sensors.foldl
      (fun sks st => sks.map (fun h => ensure_sensor_exists h device_id st p.metadata))
      c2.sinks }

/-- `values.items()` as `handle_sensor_data` consumes it: a mapping iterates
its entries, an absent `value` key defaults to `{}`, and a string or an
error-shaped object raises `AttributeError` when the per-field `.get` runs. -/
def dataValues : ValueField → Except String (List (String × FieldData))
  | .map m => .ok m
  | .absent => .ok []
  | .str _ => .error "AttributeError"
  | .errObj _ _ _ => .error "AttributeError"

/-- The `try` body of `SensorDataCollector.handle_sensor_data`: normalize
the timestamp, extract the values, fan the store operation out over every
registered storage handler. -/
def handle_sensor_dataE (c : Collector) (device_id sensor_kind : String)
    (p : Payload) (now : Int) : Except String Collector := do
  let ts ← normalizeTs p.timestamp now
  let vals ← dataValues p.value
  pure { c with
    sinks := c.sinks.map (fun h => store_sensor_data h device_id sensor_kind ts vals) }

/-- `SensorDataCollector.handle_sensor_data`: the `try` body with its
`except` clause — any exception is logged and leaves the collector as it
was (no sink had been touched yet when the body can raise). -/
def handle_sensor_data (c : Collector) (device_id sensor_kind : String)
    (p : Payload) (now : Int) : Collector :=
  match handle_sensor_dataE c device_id sensor_kind p now with
  | .ok c1 => c1
  | .error _ => c

/-- `SensorDataCollector.handle_status`: normalizes the timestamp (which can
raise) and logs; no state change. -/
def handle_status (p : Payload) (now : Int) : Except String Unit := do
  let _ ← normalizeTs p.timestamp now
  pure ()

/-- `payload.get('value', {})` as `handle_error` consumes it: the three
`.get` fields of an error object, defaults for an absent or metric-shaped
value, `AttributeError` for a plain string. -/
def valueError : ValueField → Except String (Option String × Option String × Option Int)
  | .errObj et msg sev => .ok (et, msg, sev)
  | .absent => .ok (none, none, none)
  | .map _ => .ok (none, none, none)
  | .str _ => .error "AttributeError"

/-- The four-level severity scale of `handle_error`. -/
def severity_labels : List String := ["INFO", "WARNING", "ERROR", "CRITICAL"]

/-- Python list indexing `xs[i]`: non-negative indexes from the front,
negative indexes from the back, `IndexError` outside `[-len, len)`. -/
def pyIndex (xs : List String) (i : Int) : Except String String :=
  if 0 ≤ i then
    if i < xs.length then .ok (xs.getD i.toNat "") else .error "IndexError"
  else
    if 0 ≤ i + xs.length then .ok (xs.getD (i + xs.length).toNat "")
    else .error "IndexError"

/-- `severity_labels[min(severity, 3)]` of `handle_error`. -/
def severityLabel (severity : Int) : Except String String :=
  pyIndex severity_labels (min severity 3)

/-- `SensorDataCollector.handle_error`: read the error object (severity
defaults to 0), normalize the timestamp, then log the label selected by
`severity_labels[min(severity, 3)]`; returns the logged label. -/
def handle_error (p : Payload) (now : Int) : Except String String := do
  let (_error_type, _message, sev) ← valueError p.value
  let severity := sev.getD 0
  let _ ← normalizeTs p.timestamp now
  severityLabel severity

/-- `str.split('/')` on the character list: splitting at every `'/'`,
keeping empty segments, one segment even for the empty string. -/
def splitSlash : List Char → List (List Char)
  | [] => [[]]
  | c :: rest =>
    match splitSlash rest with
    | [] => [[]]
    | s :: ss => if c = '/' then [] :: s :: ss else (c :: s) :: ss

/-- `msg.topic.split('/')`. -/
def topicParts (topic : String) : List String :=
  (splitSlash topic.data).map (fun cs => String.mk cs)

/-- The routing outcome of one raw message: one of the four typed events,
or a drop (with the reason distinguishing the silent drops from the ones
that surface as caught exceptions). -/
inductive Event where
  | capabilities (device_id : String) (p : Payload)
  | sensorData (device_id sensor_kind : String) (p : Payload)
  | status (device_id : String) (p : Payload)
  | error (device_id : String) (p : Payload)
  | dropped (reason : String)
deriving DecidableEq, Repr

/-- The classification step of `SensorDataCollector.on_message`: split the
topic, silently drop topics with fewer than three segments, decode the
payload (`raw = none` models a JSON decode failure), and branch on the
third segment.  The `sensors` branch reads `topic_parts[3]` — an
`IndexError` when the fourth segment is missing — and never inspects a
fifth segment. -/
def route (topic : String) (raw : Option Payload) : Event :=
  let parts := topicParts topic
  if parts.length < 3 then .dropped "short-topic"
  else
    match raw with
    | none => .dropped "json-decode-error"
    | some payload =>
      let device_id := parts.getD 1 ""
      let message_type := parts.getD 2 ""
      if message_type == "capabilities" then .capabilities device_id payload
      else if message_type == "sensors" then
        match parts[3]? with
        | none => .dropped "index-error"
        | some kind => .sensorData device_id kind payload
      else if message_type == "status" then .status device_id payload
      else if message_type == "error" then .error device_id payload
      else .dropped "unrecognized-kind"

/-- The `try` body of `on_message`: dispatch the routed event; the drops
that Python reaches by raising (`json.JSONDecodeError`, `IndexError`)
re-raise here, the silent drops return the collector unchanged. -/
def on_messageE (c : Collector) (topic : String) (raw : Option Payload)
    (now : Int) : Except String Collector :=
  match route topic raw with
  | .capabilities device_id p => .ok (handle_capabilities c device_id p)
  | .sensorData device_id kind p => .ok (handle_sensor_data c device_id kind p now)
  | .status _ p => do let _ ← handle_status p now; pure c
  | .error _ p => do let _ ← handle_error p now; pure c
  | .dropped r =>
    if r == "json-decode-error" then .error "JSONDecodeError"
    else if r == "index-error" then .error "IndexError"
    else .ok c

/-- `SensorDataCollector.on_message`: the `try` body with its two `except`
clauses; every exception is caught and logged (`Failed to decode JSON` for
a decode failure, `Error processing message` otherwise), so the callback
never raises.  Returns the new state and the log lines of the catch sites. -/
def on_message (c : Collector) (topic : String) (raw : Option Payload)
    (now : Int) : Collector × List String :=
  match on_messageE c topic raw now with
  | .ok c1 => (c1, [])
  | .error e =>
    (c, [if e == "JSONDecodeError" then "Failed to decode JSON"
         else "Error processing message"])

/-- Processing a batch of raw messages in delivery order, each through
`on_message`. -/
def processMessages (c : Collector) (msgs : List (String × Option Payload))
    (now : Int) : Collector :=
  msgs.foldl (fun c m => (on_message c m.1 m.2 now).1) c

/-- `SensorDataCollector.on_connect`: reason code 0 marks the client
connected and resets the reconnect delay to its initial 5; any other code
only marks it disconnected. -/
def on_connect (c : Collector) (reason_code : Nat) : Collector :=
  if reason_code == 0 then { c with connected := true, reconnect_delay := 5 }
  else { c with connected := false }

/-- `SensorDataCollector.connect_with_retry`, driven by the list of attempt
outcomes (`true` = `mqtt_client.connect` succeeds): on each failure sleep
the current delay and double it, capped at `max_reconnect_delay = 60`;
return on the first success.  Yields the slept delays, the final collector
state and whether a success was reached within the modelled attempts. -/
def connect_with_retry (c : Collector) : List Bool → List Nat × Collector × Bool
  | [] => ([], c, false)
  | true :: _ => ([], c, true)
  | false :: rest =>
    let d := c.reconnect_delay
    let out := connect_with_retry { c with reconnect_delay := min (d * 2) 60 } rest
    (d :: out.1, out.2)

/-- One identity-cache-facing operation on a single sink, as the claims
quantify over sequences of them. -/
inductive SinkOp where
  | ensure (device_id sensor_type : String) (metadata : List (String × Meta))
  | get (device_id sensor_type : String)
deriving DecidableEq, Repr

/-- Apply one sink operation (`get_sensor_id` is run for its cache-filling
effect; its returned id is recovered separately from the final state). -/
def applySinkOp (s : Sink) : SinkOp → Sink
  | .ensure d t m => ensure_sensor_exists s d t m
  | .get d t => (get_sensor_id s d t).2

/-- Run a sequence of sink operations. -/
def runSinkOps (s : Sink) (ops : List SinkOp) : Sink :=
  ops.foldl applySinkOp s

/-- The sensor id that `store_sensor_data` resolves for `(device_id,
sensor_type)` against the given sink state: the `get_sensor_id` answer, or
the answer after the auto-create on a first miss. -/
def resolveSid (s : Sink) (device_id sensor_type : String) : Option Nat :=
  match get_sensor_id s device_id sensor_type with
  | (some sid, _) => some sid
  | (none, s1) =>
    (get_sensor_id (ensure_sensor_exists s1 device_id sensor_type []) device_id sensor_type).1

/-- The normalized timestamp `handle_sensor_data` attaches when the payload
timestamp is numeric or absent. -/
def tsOf (p : Payload) (now : Int) : UTCTime :=
  match p.timestamp with
  | some (.num t) => ⟨t⟩
  | _ => ⟨now⟩

/-- The `devices` rows of a sink for one device id. -/
def deviceRows (s : Sink) (device_id : String) : List DeviceRow :=
  s.devices.filter (fun r => r.device_id == device_id)

/-- The `sensors` rows of a sink for one `(device, kind)` pair. -/
def sensorRows (s : Sink) (device_id sensor_type : String) : List SensorRow :=
  s.sensors.filter (sensorMatches device_id sensor_type)

/-- Cache soundness: every cache entry was filled from a sensor row, so its
key is the encoded key of some pair whose stored id it holds. -/
def cacheOK (s : Sink) : Prop :=
  ∀ k i, assocLookup s.cache k = some i →
    ∃ d t, cacheKey d t = k ∧ storeLookup s.sensors d t = some i

/-- Referential integrity of measurements: every measurement row references
an existing sensor row. -/
def measOK (s : Sink) : Prop :=
  ∀ m ∈ s.measurements, ∃ r ∈ s.sensors, r.sensor_id = m.sensor_id

/-- The per-sink well-formedness invariant. -/
def sinkOK (s : Sink) : Prop := cacheOK s ∧ measOK s

/-- The delay sequence slept by `connect_with_retry` over `n` consecutive
failures when starting from delay `d`. -/
def delaysFrom (d : Nat) : Nat → List Nat
  | 0 => []
  | n + 1 => d :: delaysFrom (min (d * 2) 60) n

/-- A data payload as in the end-to-end scenario of the spec. -/
def samplePayload : Payload :=
  { emptyPayload with
    timestamp := some (.num 1700000000),
    value := .map [("celsius", ⟨some 21⟩)] }

/-- A data payload whose `timestamp` field is present but non-numeric. -/
def badTsPayload : Payload :=
  { emptyPayload with
    timestamp := some .nonNum,
    value := .map [("m", ⟨some 7⟩)] }

/-- A sink whose database already holds the sensor `("d", "t")`. -/
def sinkWithSensor : Sink :=
  { emptySink with sensors := [⟨1, "d", "t", "unknown", none⟩] }

/-- A capabilities payload declaring two sensor kinds (one twice). -/
def sampleCapPayload : Payload :=
  { emptyPayload with
    device_name := some "esp32-lab",
    device_location := some "lab",
    firmware_version := some "1.2",
    sensors := ["temp", "hum", "temp"] }

/-- An error payload with the given severity and a numeric timestamp. -/
def errPayload (sev : Int) : Payload :=
  { emptyPayload with
    timestamp := some (.num 0),
    value := .errObj (some "sensor_fault") (some "boom") (some sev) }

/-- The sink state after the resolution (and possible auto-creation) phase
of `store_sensor_data`, before the measurement-insert transaction. -/
def resolveState (s : Sink) (device_id sensor_type : String) : Sink :=
  match get_sensor_id s device_id sensor_type with
  | (some _, s1) => s1
  | (none, s1) =>
    (get_sensor_id (ensure_sensor_exists s1 device_id sensor_type []) device_id sensor_type).2

/-- The collector after one data message from the never-registered device
`ghost` reaches a fresh single-sink collector. -/
def ghostCollector : Collector :=
  (on_message (mkCollector [emptySink]) "devices/ghost/sensors/temp/data"
    (some samplePayload) 0).1

/-- The effect of one capabilities announcement on one sink: register the
device, then register every declared sensor kind (the per-sink slice of
`handle_capabilities`). -/
def capRegister (device_id : String) (p : Payload) (s : Sink) : Sink :=
  p.sensors.foldl (fun s st => ensure_sensor_exists s device_id st p.metadata)
    (ensure_device_exists s device_id p)

theorem assocLookup_nil {β : Type} (k : String) :
    assocLookup ([] : List (String × β)) k = none := rfl

theorem assocLookup_cons {β : Type} (e : String × β) (l : List (String × β)) (k : String) :
    assocLookup (e :: l) k = if e.1 = k then some e.2 else assocLookup l k := by
  simp only [assocLookup, List.find?_cons]
  by_cases h : e.1 = k
  · simp [h]
  · simp [h, (by simpa using h : ¬ (e.1 == k) = true)]

theorem assocLookup_map_upsert {β : Type} (l : List (String × β)) (k k' : String) (v : β) :
    assocLookup (l.map (fun e => if e.1 == k then (k, v) else e)) k' =
      if k' = k ∧ l.any (fun e => e.1 == k) then some v else assocLookup l k' := by
  induction l with
  | nil => simp [assocLookup_nil]
  | cons e l ih =>
    simp only [List.map_cons, List.any_cons, assocLookup_cons]
    by_cases hek : e.1 = k
    · simp only [hek, beq_self_eq_true, if_pos, Bool.true_or]
      by_cases hkk : k' = k
      · simp [hkk]
      · simp only [ih, hkk, false_and, if_false]
        have : ¬ k = k' := fun h => hkk h.symm
        simp [this, hek]
    · have hb : (e.1 == k) = false := by simpa using hek
      simp only [hb, if_neg, Bool.false_or, ih]
      by_cases hk' : e.1 = k'
      · have : ¬ (k' = k) := fun h => hek (hk'.trans h)
        simp [hk', this, hb]
      · simp [hk', ih]

theorem assocLookup_append_single {β : Type} (l : List (String × β)) (k k' : String) (v : β) :
    assocLookup (l ++ [(k, v)]) k' =
      (assocLookup l k').or (if k' = k then some v else none) := by
  simp only [assocLookup, List.find?_append]
  cases hf : l.find? (fun e => e.1 == k') with
  | some e => simp [Option.or]
  | none =>
    simp only [Option.map_none, Option.none_or]
    by_cases h : k' = k
    · simp [h, List.find?_cons]
    · have : (k == k') = false := by simpa using fun hh => h hh.symm
      simp [List.find?_cons, this, h]

theorem assocLookup_upsert {β : Type} (l : List (String × β)) (k k' : String) (v : β) :
    assocLookup (assocUpsert l k v) k' = if k' = k then some v else assocLookup l k' := by
  unfold assocUpsert
  by_cases hany : l.any (fun e => e.1 == k) = true
  · simp only [hany, if_pos, assocLookup_map_upsert]
    by_cases hkk : k' = k
    · simp [hkk, hany]
    · simp [hkk]
  · simp only [hany, if_neg, Bool.not_eq_true, assocLookup_append_single]
    have hany' : (l.any fun e => e.1 == k) = false := by
      cases h : l.any (fun e => e.1 == k) with
      | true => exact absurd h hany
      | false => rfl
    have hfind : l.find? (fun e => e.1 == k) = none :=
      List.find?_eq_none.mpr (fun e he => by simpa using List.any_eq_false.mp hany' e he)
    have hnone : assocLookup l k = none := by
      simp [assocLookup, hfind]
    by_cases hkk : k' = k
    · subst hkk; simp [hnone, Option.or]
    · simp [hkk]

theorem storeLookup_mem (rows : List SensorRow) (d t : String) (i : Nat)
    (h : storeLookup rows d t = some i) :
    ∃ r ∈ rows, r.sensor_id = i ∧ r.device_id = d ∧ r.sensor_type = t := by
  unfold storeLookup at h
  cases hf : rows.find? (sensorMatches d t) with
  | none => rw [hf] at h; simp at h
  | some r =>
    rw [hf] at h
    have hm := List.mem_of_find?_eq_some hf
    have hp := List.find?_some hf
    simp only [sensorMatches, Bool.and_eq_true, beq_iff_eq] at hp
    exact ⟨r, hm, by simpa using h, hp.1, hp.2⟩

theorem storeLookup_append_of_some (rows : List SensorRow) (d t : String) (i : Nat)
    (h : storeLookup rows d t = some i) (r : SensorRow) :
    storeLookup (rows ++ [r]) d t = some i := by
  unfold storeLookup at *
  cases hf : rows.find? (sensorMatches d t) with
  | none => rw [hf] at h; simp at h
  | some r0 =>
    rw [hf] at h
    rw [List.find?_append, hf]
    simpa [Option.or] using h

theorem storeLookup_append_self (rows : List SensorRow) (d t : String)
    (h : storeLookup rows d t = none) (sid : Nat) (loc : String) (md : Option Meta) :
    storeLookup (rows ++ [⟨sid, d, t, loc, md⟩]) d t = some sid := by
  unfold storeLookup at *
  cases hf : rows.find? (sensorMatches d t) with
  | some r0 => rw [hf] at h; simp at h
  | none =>
    rw [List.find?_append, hf]
    simp [List.find?_cons, sensorMatches, Option.or]

theorem cacheOK_empty : cacheOK emptySink := by
  intro k i h
  simp [emptySink, assocLookup_nil] at h

theorem cacheOK_ensure (s : Sink) (d t : String) (m : List (String × Meta))
    (h : cacheOK s) : cacheOK (ensure_sensor_exists s d t m) := by
  unfold ensure_sensor_exists
  cases hl : storeLookup s.sensors d t with
  | some sid =>
    intro k i hk
    simp only at hk
    rw [assocLookup_upsert] at hk
    by_cases hkk : k = cacheKey d t
    · rw [if_pos hkk] at hk
      exact ⟨d, t, hkk.symm, by simpa [hl] using congrArg id hk⟩
    · rw [if_neg hkk] at hk
      exact h k i hk
  | none =>
    intro k i hk
    simp only at hk
    rw [assocLookup_upsert] at hk
    by_cases hkk : k = cacheKey d t
    · rw [if_pos hkk] at hk
      obtain rfl : s.nextId = i := by simpa using hk
      exact ⟨d, t, hkk.symm, storeLookup_append_self _ _ _ hl _ _ _⟩
    · rw [if_neg hkk] at hk
      obtain ⟨d', t', hkey, hlk⟩ := h k i hk
      exact ⟨d', t', hkey, storeLookup_append_of_some _ _ _ _ hlk _⟩

theorem cacheOK_get (s : Sink) (d t : String) (h : cacheOK s) :
    cacheOK (get_sensor_id s d t).2 := by
  unfold get_sensor_id
  cases hc : assocLookup s.cache (cacheKey d t) with
  | some sid => exact h
  | none =>
    cases hl : storeLookup s.sensors d t with
    | none => exact h
    | some sid =>
      intro k i hk
      simp only at hk
      rw [assocLookup_upsert] at hk
      by_cases hkk : k = cacheKey d t
      · rw [if_pos hkk] at hk
        exact ⟨d, t, hkk.symm, by simpa [hl] using congrArg id hk⟩
      · rw [if_neg hkk] at hk
        exact h k i hk

theorem cacheOK_runSinkOps (ops : List SinkOp) (s : Sink) (h : cacheOK s) :
    cacheOK (runSinkOps s ops) := by
  induction ops generalizing s with
  | nil => exact h
  | cons op rest ih =>
    cases op with
    | ensure d t m => exact ih _ (cacheOK_ensure s d t m h)
    | get d t => exact ih _ (cacheOK_get s d t h)

/-- C2 (counterexample): the claim fails as stated.  After the single
operation `ensure_sensor_exists "a_b" "c"`, the cache key `"a_b_c"` also
encodes the distinct pair `("a", "b_c")`, so `get_sensor_id "a" "b_c"`
answers `some 1` from the cache although the backing store has no row at
all for `("a", "b_c")` — a stale hit holding a wrong id. -/
theorem cache_stale_hit_underscore_collision :
    (get_sensor_id (runSinkOps emptySink [SinkOp.ensure "a_b" "c" []]) "a" "b_c").1 = some 1 ∧
    assocLookup (runSinkOps emptySink [SinkOp.ensure "a_b" "c" []]).cache
      (cacheKey "a" "b_c") = some 1 ∧
    storeLookup (runSinkOps emptySink [SinkOp.ensure "a_b" "c" []]).sensors "a" "b_c" = none := by
  decide

/-- C2 (amended): after any sequence of `ensure_sensor_exists` /
`get_sensor_id` operations from a fresh sink, a cache hit for `(d, t)`
always holds the stored id of SOME pair whose underscore-joined key
collides with `(d, t)`; whenever no sensor row of a distinct pair shares
the joined key `d ++ "_" ++ t` (in particular for ids and kinds free of
collisions), the cached id equals the backing store's id for exactly that
pair. -/
theorem cache_hit_correct_of_injective_encoding (ops : List SinkOp) (d t : String) (i : Nat)
    (hhit : assocLookup (runSinkOps emptySink ops).cache (cacheKey d t) = some i)
    (hinj : ∀ r ∈ (runSinkOps emptySink ops).sensors,
      cacheKey r.device_id r.sensor_type = cacheKey d t →
        r.device_id = d ∧ r.sensor_type = t) :
    (get_sensor_id (runSinkOps emptySink ops) d t).1 = some i ∧
    storeLookup (runSinkOps emptySink ops).sensors d t = some i := by
  have hok := cacheOK_runSinkOps ops emptySink cacheOK_empty
  obtain ⟨d', t', hkey, hlk⟩ := hok _ _ hhit
  obtain ⟨r, hmem, hid, hdev, hty⟩ := storeLookup_mem _ _ _ _ hlk
  have hrkey : cacheKey r.device_id r.sensor_type = cacheKey d t := by rw [hdev, hty, hkey]
  obtain ⟨hd, ht⟩ := hinj r hmem hrkey
  have hdd : d' = d := by rw [← hdev, hd]
  have htt : t' = t := by rw [← hty, ht]
  subst hdd
  subst htt
  refine ⟨?_, hlk⟩
  unfold get_sensor_id
  rw [hhit]

/-- C2 (witness): the amended theorem applied to the one-operation run
`ensure_sensor_exists "dev" "temp"` followed by a cache hit for
`("dev", "temp")`. -/
theorem cache_hit_correct_witness :
    (get_sensor_id (runSinkOps emptySink [SinkOp.ensure "dev" "temp" []]) "dev" "temp").1
        = some 1 ∧
    storeLookup (runSinkOps emptySink [SinkOp.ensure "dev" "temp" []]).sensors "dev" "temp"
        = some 1 :=
  cache_hit_correct_of_injective_encoding [SinkOp.ensure "dev" "temp" []] "dev" "temp" 1
    (by decide) (by decide)

theorem getD_mem_of_lt {α : Type} (l : List α) (i : Nat) (d : α) (h : i < l.length) :
    l.getD i d ∈ l := by
  rw [List.getD_eq_getElem?_getD, List.getElem?_eq_getElem h]
  exact List.getElem_mem h

theorem connect_with_retry_replicate (n : Nat) (c : Collector) :
    (connect_with_retry c (List.replicate n false)).1 = delaysFrom c.reconnect_delay n := by
  induction n generalizing c with
  | zero => rfl
  | succ n ih =>
    simp only [List.replicate_succ, connect_with_retry, delaysFrom]
    rw [ih]

theorem delaysFrom_length (d n : Nat) : (delaysFrom d n).length = n := by
  induction n generalizing d with
  | zero => rfl
  | succ n ih => simp [delaysFrom, ih]

theorem delaysFrom_getD_zero (d n : Nat) (h : 0 < n) : (delaysFrom d n).getD 0 0 = d := by
  cases n with
  | zero => omega
  | succ n => rfl

theorem delaysFrom_step (n i d : Nat) (h : i + 1 < n) :
    (delaysFrom d n).getD (i + 1) 0 = min ((delaysFrom d n).getD i 0 * 2) 60 := by
  induction n generalizing d i with
  | zero => omega
  | succ n ih =>
    cases i with
    | zero =>
      have hn : 0 < n := by omega
      simp only [delaysFrom, List.getD_cons_succ, List.getD_cons_zero]
      exact delaysFrom_getD_zero _ _ hn
    | succ i =>
      have hi : i + 1 < n := by omega
      simp only [delaysFrom, List.getD_cons_succ]
      exact ih i _ hi

theorem delaysFrom_bounds (n d : Nat) (h5 : 5 ≤ d) (h60 : d ≤ 60) :
    ∀ x ∈ delaysFrom d n, 5 ≤ x ∧ x ≤ 60 := by
  induction n generalizing d with
  | zero => simp [delaysFrom]
  | succ n ih =>
    intro x hx
    simp only [delaysFrom, List.mem_cons] at hx
    rcases hx with rfl | hx
    · exact ⟨h5, h60⟩
    · exact ih (min (d * 2) 60) (by omega) (by omega) x hx

/-- C9: starting from the initial delay 5, the delays slept over `n`
consecutive connection failures are: `n` of them, the first equal to 5,
each successor equal to the double of its predecessor capped at 60, hence
non-decreasing and always within `[5, 60]`; and a successful connection
(`on_connect` with reason code 0) resets the delay to 5 from any state. -/
theorem backoff_policy (c : Collector) (hc : c.reconnect_delay = 5) (n : Nat) :
    ((connect_with_retry c (List.replicate n false)).1.length = n) ∧
    (0 < n → (connect_with_retry c (List.replicate n false)).1.getD 0 0 = 5) ∧
    (∀ i, i + 1 < n →
      (connect_with_retry c (List.replicate n false)).1.getD (i + 1) 0 =
        min ((connect_with_retry c (List.replicate n false)).1.getD i 0 * 2) 60) ∧
    (∀ i, i + 1 < n →
      (connect_with_retry c (List.replicate n false)).1.getD i 0 ≤
        (connect_with_retry c (List.replicate n false)).1.getD (i + 1) 0) ∧
    (∀ x ∈ (connect_with_retry c (List.replicate n false)).1, 5 ≤ x ∧ x ≤ 60) ∧
    (∀ c' : Collector, (on_connect c' 0).reconnect_delay = 5) := by
  rw [connect_with_retry_replicate, hc]
  have hb := delaysFrom_bounds n 5 (by omega) (by omega)
  refine ⟨delaysFrom_length 5 n, fun h => delaysFrom_getD_zero 5 n h,
    fun i h => delaysFrom_step n i 5 h, fun i h => ?_, hb, fun c' => rfl⟩
  have hx : (delaysFrom 5 n).getD i 0 ∈ delaysFrom 5 n :=
    getD_mem_of_lt _ i 0 (by rw [delaysFrom_length]; omega)
  have := hb _ hx
  rw [delaysFrom_step n i 5 h]
  omega

/-- C9 (witness): the backoff theorem applied at the initial collector and
six consecutive failures; the fifth slept delay is the capped double of
the fourth, and a successful connection resets the delay to 5. -/
theorem backoff_policy_witness :
    ((connect_with_retry (mkCollector []) (List.replicate 6 false)).1.getD 4 0 =
      min ((connect_with_retry (mkCollector []) (List.replicate 6 false)).1.getD 3 0 * 2) 60) ∧
    (on_connect (mkCollector []) 0).reconnect_delay = 5 :=
  ⟨(backoff_policy (mkCollector []) (by decide) 6).2.2.1 3 (by decide),
   (backoff_policy (mkCollector []) (by decide) 6).2.2.2.2.2 (mkCollector [])⟩

deriving instance DecidableEq for Except

/-- C10 (counterexample): the claim fails as stated.  For the out-of-range
severity `-2`, `handle_error` logs the label `ERROR` (Python's negative
indexing into `severity_labels[min(-2, 3)]`), not the highest level
`CRITICAL` the claim requires for every out-of-range severity. -/
theorem severity_negative_not_clamped :
    handle_error (errPayload (-2)) 0 = .ok "ERROR" ∧
    severityLabel (-2) = .ok "ERROR" ∧
    (Except.ok "ERROR" : Except String String) ≠ .ok "CRITICAL" := by
  decide

/-- C10 (amended): `handle_error` selects `severity_labels[min(severity, 3)]`
with Python list-indexing semantics: severities at least 3 give `CRITICAL`,
severities in `[0, 3]` select the scale in order, the out-of-range `-1`
happens to give `CRITICAL` while `-4 ≤ severity ≤ -2` select from the back
of the scale (not clamped to `CRITICAL`), and severities below `-4` raise
an `IndexError` (caught by the message router, not by `handle_error`). -/
theorem severity_label_amended (sev now : Int) :
    handle_error (errPayload sev) now = severityLabel sev ∧
    (3 ≤ sev → severityLabel sev = .ok "CRITICAL") ∧
    (0 ≤ sev → sev ≤ 3 → severityLabel sev = .ok (severity_labels.getD sev.toNat "")) ∧
    (sev = -1 → severityLabel sev = .ok "CRITICAL") ∧
    (-4 ≤ sev → sev < 0 → severityLabel sev = .ok (severity_labels.getD (sev + 4).toNat "")) ∧
    (sev < -4 → severityLabel sev = .error "IndexError") := by
  have hlen : ((severity_labels.length : Int)) = 4 := by decide
  refine ⟨rfl, ?_, ?_, ?_, ?_, ?_⟩
  · intro h
    unfold severityLabel
    rw [min_eq_right h]
    decide
  · intro h1 h2
    unfold severityLabel pyIndex
    rw [min_eq_left h2, if_pos h1, if_pos (by omega)]
  · intro h
    subst h
    decide
  · intro h1 h2
    unfold severityLabel pyIndex
    rw [min_eq_left (by omega), if_neg (by omega), if_pos (by omega), hlen]
  · intro h
    unfold severityLabel pyIndex
    rw [min_eq_left (by omega), if_neg (by omega), if_neg (by omega)]

/-- C10 (witness): the amended theorem at severity 7: the label logged by
`handle_error` is `CRITICAL`. -/
theorem severity_label_witness :
    handle_error (errPayload 7) 0 = severityLabel 7 ∧ severityLabel 7 = .ok "CRITICAL" :=
  ⟨(severity_label_amended 7 0).1, (severity_label_amended 7 0).2.1 (by decide)⟩

/-- C7 (counterexample): the claim fails as stated.  The topic
`devices/d/sensors/temp/extra` has a fifth segment different from `data`,
yet the router dispatches a sensor-data event for it — `on_message` never
inspects the fifth segment (only the broker-side subscription pattern
`devices/+/sensors/+/data` restricts it). -/
theorem route_dispatches_without_data_segment :
    route "devices/d/sensors/temp/extra" (some emptyPayload) =
      .sensorData "d" "temp" emptyPayload ∧
    (topicParts "devices/d/sensors/temp/extra").getD 4 "" = "extra" := by
  decide

/-- C7 (amended): the router dispatches a sensor-data event carrying
(device id, sensor kind, payload) exactly when the topic's third segment
is `sensors`, a fourth segment exists, and the payload decodes — with the
device id the second segment and the kind the fourth; the value of a fifth
segment is never checked (a `sensors` topic without a fourth segment is
dropped via the caught `IndexError`). -/
theorem route_sensorData_iff (topic : String) (raw : Option Payload) (d k : String)
    (p : Payload) :
    route topic raw = .sensorData d k p ↔
      ((topicParts topic).getD 2 "" = "sensors" ∧ 4 ≤ (topicParts topic).length ∧
       raw = some p ∧ d = (topicParts topic).getD 1 "" ∧
       k = (topicParts topic).getD 3 "") := by
  constructor
  · intro h
    unfold route at h
    by_cases h3 : (topicParts topic).length < 3
    · rw [if_pos h3] at h; simp at h
    rw [if_neg h3] at h
    cases raw with
    | none => simp at h
    | some payload =>
      dsimp only at h
      by_cases hcap : (topicParts topic).getD 2 "" = "capabilities"
      · rw [if_pos (beq_iff_eq.mpr hcap)] at h; simp at h
      rw [if_neg (by simpa using hcap)] at h
      by_cases hsens : (topicParts topic).getD 2 "" = "sensors"
      · rw [if_pos (beq_iff_eq.mpr hsens)] at h
        cases h4 : (topicParts topic)[3]? with
        | none => rw [h4] at h; simp at h
        | some kind =>
          rw [h4] at h
          simp only [Event.sensorData.injEq] at h
          obtain ⟨hd, hk, hp⟩ := h
          have hlen : 3 < (topicParts topic).length := by
            rcases List.getElem?_eq_some.mp h4 with ⟨hlt, _⟩
            exact hlt
          refine ⟨hsens, by omega, by rw [hp], hd.symm, ?_⟩
          rw [List.getD_eq_getElem?_getD, h4]
          exact hk.symm
      rw [if_neg (by simpa using hsens)] at h
      by_cases hstat : (topicParts topic).getD 2 "" = "status"
      · rw [if_pos (beq_iff_eq.mpr hstat)] at h; simp at h
      rw [if_neg (by simpa using hstat)] at h
      by_cases herr : (topicParts topic).getD 2 "" = "error"
      · rw [if_pos (beq_iff_eq.mpr herr)] at h; simp at h
      rw [if_neg (by simpa using herr)] at h
      simp at h
  · rintro ⟨hsens, hlen, rfl, rfl, rfl⟩
    unfold route
    rw [if_neg (by omega)]
    dsimp only
    rw [if_neg (by rw [beq_iff_eq, hsens]; decide)]
    rw [if_pos (beq_iff_eq.mpr hsens)]
    have h4 : (topicParts topic)[3]? = some ((topicParts topic).getD 3 "") := by
      rw [List.getElem?_eq_getElem (by omega)]
      rw [List.getD_eq_getElem?_getD, List.getElem?_eq_getElem (by omega)]
      rfl
    rw [h4]

/-- C7 (witness): the amended characterization at the canonical data topic. -/
theorem route_sensorData_iff_witness :
    route "devices/dev1/sensors/temp/data" (some emptyPayload) =
      .sensorData "dev1" "temp" emptyPayload :=
  (route_sensorData_iff "devices/dev1/sensors/temp/data" (some emptyPayload)
    "dev1" "temp" emptyPayload).mpr (by decide)

/-- C8 (counterexample): the claim fails as stated.  The two-segment topic
`devices/x` is dropped by the early-return branch with NO log line at all,
not "with a logged warning" as the claim requires for every malformed
input. -/
theorem short_topic_dropped_silently :
    on_message (mkCollector []) "devices/x" (some emptyPayload) 0 = (mkCollector [], []) := by
  decide

/-- C8 (amended): every malformed raw input is dropped without an exception
escaping `on_message` and without affecting the processing of subsequent
messages; but only undecodable payloads (and in-handler exceptions) produce
a log line — short topics and unrecognized kinds are dropped silently. -/
theorem malformed_input_dropped (c : Collector) (topic : String) (raw : Option Payload)
    (now : Int) (msgs : List (String × Option Payload)) :
    ((topicParts topic).length < 3 → on_message c topic raw now = (c, [])) ∧
    (¬ (topicParts topic).length < 3 → raw = none →
      on_message c topic raw now = (c, ["Failed to decode JSON"])) ∧
    (route topic raw = .dropped "unrecognized-kind" → on_message c topic raw now = (c, [])) ∧
    (∀ e, on_messageE c topic raw now = .error e →
      on_message c topic raw now =
        (c, [if e == "JSONDecodeError" then "Failed to decode JSON"
             else "Error processing message"])) ∧
    ((on_message c topic raw now).1 = c →
      processMessages c ((topic, raw) :: msgs) now = processMessages c msgs now) := by
  refine ⟨?_, ?_, ?_, ?_, ?_⟩
  · intro h
    have hr : route topic raw = .dropped "short-topic" := by
      unfold route; rw [if_pos h]
    unfold on_message on_messageE
    rw [hr]
    rfl
  · intro h3 hraw
    subst hraw
    have hr : route topic none = .dropped "json-decode-error" := by
      unfold route; rw [if_neg h3]
    unfold on_message on_messageE
    rw [hr]
    rfl
  · intro hr
    unfold on_message on_messageE
    rw [hr]
    rfl
  · intro e he
    unfold on_message
    rw [he]
  · intro h
    unfold processMessages
    rw [List.foldl_cons]
    simp only
    rw [h]

/-- C8 (witness): the amended theorem at an undecodable payload on a
three-segment topic: dropped, state unchanged, one logged error line. -/
theorem malformed_input_dropped_witness :
    on_message (mkCollector []) "devices/a/status" none 0 =
      (mkCollector [], ["Failed to decode JSON"]) :=
  (malformed_input_dropped (mkCollector []) "devices/a/status" none 0 []).2.1
    (by decide) rfl

/-- C6 (counterexample): the claim fails as stated.  A payload carrying the
reading 7 but a present-and-non-numeric `timestamp` makes
`datetime.fromtimestamp` raise; the exception is caught and the whole
message is discarded — NO measurement is stored at all, instead of the
claimed fallback to the current processing time. -/
theorem unparseable_timestamp_discards_message :
    handle_sensor_data (mkCollector [sinkWithSensor]) "d" "t" badTsPayload 123 =
      mkCollector [sinkWithSensor] ∧
    (handle_sensor_data (mkCollector [sinkWithSensor]) "d" "t" badTsPayload 123).sinks.map
      Sink.measurements = [[]] := by
  decide

/-- C6 (amended): for well-formed values, a present numeric timestamp is
interpreted as absolute UTC epoch time and the message is stored with it;
an absent timestamp is replaced by the current processing time and the
message is stored; but a present non-numeric (unparseable) timestamp makes
the handler discard the whole message unchanged — nothing is stored. -/
theorem timestamp_normalization (c : Collector) (d k : String) (p : Payload) (now : Int)
    (vals : List (String × FieldData)) (hvals : dataValues p.value = .ok vals) :
    (∀ t, p.timestamp = some (.num t) → handle_sensor_data c d k p now =
      { c with sinks := c.sinks.map (fun h => store_sensor_data h d k ⟨t⟩ vals) }) ∧
    (p.timestamp = none → handle_sensor_data c d k p now =
      { c with sinks := c.sinks.map (fun h => store_sensor_data h d k ⟨now⟩ vals) }) ∧
    (p.timestamp = some .nonNum → handle_sensor_data c d k p now = c) := by
  refine ⟨?_, ?_, ?_⟩
  · intro t hts
    unfold handle_sensor_data handle_sensor_dataE
    rw [hts, hvals]
    rfl
  · intro hts
    unfold handle_sensor_data handle_sensor_dataE
    rw [hts, hvals]
    rfl
  · intro hts
    unfold handle_sensor_data handle_sensor_dataE
    rw [hts]
    rfl

/-- C6 (witness): the amended theorem at an absent timestamp — the
measurement is stored at the processing time 42. -/
theorem timestamp_normalization_witness :
    handle_sensor_data (mkCollector [emptySink]) "d" "t"
        { emptyPayload with value := .map [("m", ⟨some 7⟩)] } 42 =
      { mkCollector [emptySink] with
        sinks := (mkCollector [emptySink]).sinks.map
          (fun h => store_sensor_data h "d" "t" ⟨42⟩ [("m", ⟨some 7⟩)]) } :=
  (timestamp_normalization (mkCollector [emptySink]) "d" "t"
    { emptyPayload with value := .map [("m", ⟨some 7⟩)] } 42
    [("m", ⟨some 7⟩)] rfl).2.1 rfl

/-- C5: when neither the cache nor the backing store knows `(d, t)`,
`store_sensor_data` auto-creates the sensor row with location `"unknown"`
and NULL (empty) metadata, fills the cache with the fresh id, and stores
one measurement row per metric with a non-null reading. -/
theorem unknown_sensor_auto_creation (s : Sink) (d t : String) (ts : UTCTime)
    (vals : List (String × FieldData))
    (hc : assocLookup s.cache (cacheKey d t) = none)
    (hs : storeLookup s.sensors d t = none)
    (hf : s.failAppend = false) :
    store_sensor_data s d t ts vals =
      { s with
        sensors := s.sensors ++ [⟨s.nextId, d, t, "unknown", none⟩],
        nextId := s.nextId + 1,
        cache := assocUpsert s.cache (cacheKey d t) s.nextId,
        measurements := s.measurements ++ mkRows ts s.nextId vals } := by
  unfold store_sensor_data get_sensor_id
  rw [hc, hs]
  dsimp only
  unfold ensure_sensor_exists
  rw [hs]
  dsimp only
  rw [assocLookup_upsert, if_pos rfl]
  dsimp only
  unfold appendMeasurements
  dsimp only
  rw [hf]
  rfl

/-- C5 (witness): the auto-creation theorem at a fresh sink and the metric
list of the end-to-end scenario. -/
theorem unknown_sensor_auto_creation_witness :
    store_sensor_data emptySink "dev" "temp" ⟨5⟩ [("celsius", ⟨some 21⟩)] =
      { emptySink with
        sensors := emptySink.sensors ++ [⟨emptySink.nextId, "dev", "temp", "unknown", none⟩],
        nextId := emptySink.nextId + 1,
        cache := assocUpsert emptySink.cache (cacheKey "dev" "temp") emptySink.nextId,
        measurements := emptySink.measurements ++
          mkRows ⟨5⟩ emptySink.nextId [("celsius", ⟨some 21⟩)] } :=
  unknown_sensor_auto_creation emptySink "dev" "temp" ⟨5⟩ [("celsius", ⟨some 21⟩)]
    rfl rfl rfl

theorem store_sensor_data_spec (s : Sink) (d t : String) (ts : UTCTime)
    (vals : List (String × FieldData)) :
    (s.failAppend = true → (store_sensor_data s d t ts vals).measurements = s.measurements) ∧
    (s.failAppend = false → ∃ sid, resolveSid s d t = some sid ∧
      (store_sensor_data s d t ts vals).measurements =
        s.measurements ++ mkRows ts sid vals) := by
  unfold store_sensor_data resolveSid get_sensor_id
  cases hc : assocLookup s.cache (cacheKey d t) with
  | some sid =>
    dsimp only
    unfold appendMeasurements
    constructor
    · intro hf; rw [hf]; rfl
    · intro hf; exact ⟨sid, rfl, by rw [hf]; rfl⟩
  | none =>
    cases hsl : storeLookup s.sensors d t with
    | some sid =>
      dsimp only
      unfold appendMeasurements
      dsimp only
      constructor
      · intro hf; rw [hf]; rfl
      · intro hf; exact ⟨sid, rfl, by rw [hf]; rfl⟩
    | none =>
      dsimp only
      unfold ensure_sensor_exists
      rw [hsl]
      dsimp only
      rw [assocLookup_upsert, if_pos rfl]
      dsimp only
      unfold appendMeasurements
      dsimp only
      constructor
      · intro hf; rw [hf]; rfl
      · intro hf; exact ⟨s.nextId, rfl, by rw [hf]; rfl⟩

theorem getD_map_sinks (l : List Sink) (f : Sink → Sink) (i : Nat) (hi : i < l.length) :
    (l.map f).getD i emptySink = f (l.getD i emptySink) := by
  rw [List.getD_eq_getElem?_getD, List.getElem?_map, List.getD_eq_getElem?_getD,
    List.getElem?_eq_getElem hi]
  rfl

/-- C1: for a well-formed data payload, no exception escapes
`handle_sensor_data` (the `try` body succeeds), and each registered sink is
updated independently: a sink whose measurement-insert transaction fails
has it rolled back (its `measurements` table is unchanged), while every
sink whose transaction succeeds appends exactly the rows of this message,
resolved against its own state — regardless of the other sinks. -/
theorem fanout_isolation (c : Collector) (d k : String) (p : Payload) (now : Int)
    (vals : List (String × FieldData))
    (hts : p.timestamp ≠ some .nonNum) (hvals : dataValues p.value = .ok vals) :
    handle_sensor_dataE c d k p now = .ok (handle_sensor_data c d k p now) ∧
    ∀ i, i < c.sinks.length →
      ((c.sinks.getD i emptySink).failAppend = true →
        ((handle_sensor_data c d k p now).sinks.getD i emptySink).measurements =
          (c.sinks.getD i emptySink).measurements) ∧
      ((c.sinks.getD i emptySink).failAppend = false →
        ∃ sid, resolveSid (c.sinks.getD i emptySink) d k = some sid ∧
          ((handle_sensor_data c d k p now).sinks.getD i emptySink).measurements =
            (c.sinks.getD i emptySink).measurements ++ mkRows (tsOf p now) sid vals) := by
  have hE : handle_sensor_dataE c d k p now =
      .ok { c with sinks := c.sinks.map (fun h => store_sensor_data h d k (tsOf p now) vals) } := by
    unfold handle_sensor_dataE tsOf
    cases hp : p.timestamp with
    | none => rw [hvals]; rfl
    | some v =>
      cases v with
      | num t => rw [hvals]; rfl
      | nonNum => exact absurd hp hts
  have hcc : handle_sensor_data c d k p now =
      { c with sinks := c.sinks.map (fun h => store_sensor_data h d k (tsOf p now) vals) } := by
    unfold handle_sensor_data
    rw [hE]
  refine ⟨by rw [hE, hcc], ?_⟩
  intro i hi
  rw [hcc]
  dsimp only
  rw [getD_map_sinks c.sinks _ i hi]
  exact store_sensor_data_spec (c.sinks.getD i emptySink) d k (tsOf p now) vals

/-- C1 (witness): two sinks, the first forced to fail its append: after one
data message the failing sink's measurements are unchanged while the other
sink appended the message's rows. -/
theorem fanout_isolation_witness :
    (((handle_sensor_data (mkCollector [failingSink, sinkWithSensor]) "d" "t"
        samplePayload 0).sinks.getD 0 emptySink).measurements =
      ((mkCollector [failingSink, sinkWithSensor]).sinks.getD 0 emptySink).measurements) ∧
    (∃ sid, resolveSid ((mkCollector [failingSink, sinkWithSensor]).sinks.getD 1 emptySink)
        "d" "t" = some sid ∧
      ((handle_sensor_data (mkCollector [failingSink, sinkWithSensor]) "d" "t"
          samplePayload 0).sinks.getD 1 emptySink).measurements =
        ((mkCollector [failingSink, sinkWithSensor]).sinks.getD 1 emptySink).measurements ++
          mkRows (tsOf samplePayload 0) sid [("celsius", ⟨some 21⟩)]) :=
  ⟨((fanout_isolation (mkCollector [failingSink, sinkWithSensor]) "d" "t" samplePayload 0
      [("celsius", ⟨some 21⟩)] (by decide) rfl).2 0 (by decide)).1 rfl,
   ((fanout_isolation (mkCollector [failingSink, sinkWithSensor]) "d" "t" samplePayload 0
      [("celsius", ⟨some 21⟩)] (by decide) rfl).2 1 (by decide)).2 rfl⟩

theorem foldl_map_sinks (kinds : List String) (f : String → Sink → Sink) (sks : List Sink) :
    kinds.foldl (fun a st => a.map (f st)) sks =
      sks.map (fun s => kinds.foldl (fun s st => f st s) s) := by
  induction kinds generalizing sks with
  | nil => simp
  | cons k0 rest ih =>
    rw [List.foldl_cons, ih, List.map_map]
    rfl

theorem handle_capabilities_sinks (c : Collector) (d : String) (p : Payload) :
    (handle_capabilities c d p).sinks = c.sinks.map (capRegister d p) := by
  unfold handle_capabilities capRegister
  dsimp only
  rw [foldl_map_sinks, List.map_map]
  rfl

theorem any_false_of_filter_nil {α : Type} (l : List α) (p : α → Bool)
    (h : l.filter p = []) : l.any p = false := by
  rw [List.any_eq_false]
  intro x hx
  exact List.filter_eq_nil_iff.mp h x hx

theorem filter_map_replace (l : List DeviceRow) (d : String) (row : DeviceRow)
    (hrow : (row.device_id == d) = true) :
    (l.map (fun r => if r.device_id == d then row else r)).filter
        (fun r => r.device_id == d) =
      (l.filter (fun r => r.device_id == d)).map (fun _ => row) := by
  induction l with
  | nil => rfl
  | cons r l ih =>
    simp only [List.map_cons, List.filter_cons]
    by_cases hr : (r.device_id == d) = true
    · rw [if_pos hr]
      simp only [if_pos hr, hrow, if_pos]
      rw [List.map_cons, ih]
    · rw [if_neg hr]
      simp only [if_neg hr]
      exact ih

theorem ed_deviceRows_of_nil (s : Sink) (d : String) (p : Payload)
    (h : deviceRows s d = []) :
    deviceRows (ensure_device_exists s d p) d =
      [⟨d, p.device_name, p.device_location, p.firmware_version⟩] := by
  unfold ensure_device_exists
  have hany : (s.devices.any (fun r => r.device_id == d)) = false :=
    any_false_of_filter_nil _ _ h
  rw [if_neg (by rw [hany]; decide)]
  unfold deviceRows at *
  dsimp only
  rw [List.filter_append, h]
  simp

theorem ed_deviceRows_of_one (s : Sink) (d : String) (p : Payload) (r0 : DeviceRow)
    (h : deviceRows s d = [r0]) :
    deviceRows (ensure_device_exists s d p) d =
      [⟨d, p.device_name, p.device_location, p.firmware_version⟩] := by
  unfold ensure_device_exists
  have hr0 : r0 ∈ s.devices ∧ (r0.device_id == d) = true := by
    have : r0 ∈ s.devices.filter (fun r => r.device_id == d) := by
      unfold deviceRows at h
      rw [h]
      exact List.mem_cons_self r0 []
    exact List.mem_filter.mp this
  have hany : (s.devices.any (fun r => r.device_id == d)) = true :=
    List.any_eq_true.mpr ⟨r0, hr0.1, hr0.2⟩
  rw [if_pos hany]
  unfold deviceRows at *
  dsimp only
  rw [filter_map_replace _ _ _ (by simp), h]
  rfl

theorem ensure_devices_eq (s : Sink) (d t : String) (m : List (String × Meta)) :
    (ensure_sensor_exists s d t m).devices = s.devices := by
  unfold ensure_sensor_exists
  split <;> rfl

theorem ed_sensors_eq (s : Sink) (d : String) (p : Payload) :
    (ensure_device_exists s d p).sensors = s.sensors := by
  unfold ensure_device_exists
  split <;> rfl

theorem foldKinds_devices_eq (kinds : List String) (s : Sink) (d : String)
    (m : List (String × Meta)) :
    (kinds.foldl (fun s st => ensure_sensor_exists s d st m) s).devices = s.devices := by
  induction kinds generalizing s with
  | nil => rfl
  | cons k0 rest ih =>
    rw [List.foldl_cons, ih, ensure_devices_eq]

theorem storeLookup_none_iff_filter (rows : List SensorRow) (d t : String) :
    storeLookup rows d t = none ↔ rows.filter (sensorMatches d t) = [] := by
  unfold storeLookup
  constructor
  · intro h
    rw [List.filter_eq_nil_iff]
    intro a ha
    cases hf : rows.find? (sensorMatches d t) with
    | some r => rw [hf] at h; simp at h
    | none => exact fun hpa => List.find?_eq_none.mp hf a ha hpa
  · intro h
    rw [List.find?_eq_none.mpr (fun a ha => List.filter_eq_nil_iff.mp h a ha)]
    rfl

theorem ensure_sensorRows_count (s : Sink) (d k' k : String) (m : List (String × Meta)) :
    (sensorRows (ensure_sensor_exists s d k' m) d k).length =
      if k' = k ∧ (sensorRows s d k).length = 0 then 1
      else (sensorRows s d k).length := by
  unfold ensure_sensor_exists
  cases hsl : storeLookup s.sensors d k' with
  | some sid =>
    by_cases hk : k' = k
    · subst hk
      have hne : sensorRows s d k' ≠ [] := by
        intro hnil
        rw [(storeLookup_none_iff_filter s.sensors d k').mpr hnil] at hsl
        cases hsl
      have hlen : (sensorRows s d k').length ≠ 0 := by
        simpa [List.length_eq_zero] using hne
      rw [if_neg (fun hcon => hlen hcon.2)]
      rfl
    · rw [if_neg (fun hcon => hk hcon.1)]
      rfl
  | none =>
    dsimp only
    unfold sensorRows
    dsimp only
    have key : ∀ R : SensorRow, R.device_id = d → R.sensor_type = k' →
        ((s.sensors ++ [R]).filter (sensorMatches d k)).length =
          (if k' = k ∧ (List.filter (sensorMatches d k) s.sensors).length = 0 then 1
           else (List.filter (sensorMatches d k) s.sensors).length) := by
      intro R hRd hRt
      rw [List.filter_append]
      by_cases hk : k' = k
      · subst hk
        have hnil : s.sensors.filter (sensorMatches d k') = [] :=
          (storeLookup_none_iff_filter _ _ _).mp hsl
        have hp : sensorMatches d k' R = true := by
          unfold sensorMatches
          rw [hRd, hRt]
          simp
        rw [hnil]
        simp [List.filter_cons, hp]
      · have hkb : (k' == k) = false := by simpa using hk
        have hp : sensorMatches d k R = false := by
          unfold sensorMatches
          rw [hRt, hkb]
          simp
        rw [if_neg (fun hcon => hk hcon.1)]
        simp [List.filter_cons, hp]
    exact key _ rfl rfl

theorem foldKinds_count (kinds : List String) (s : Sink) (d k : String)
    (m : List (String × Meta)) :
    (sensorRows (kinds.foldl (fun s st => ensure_sensor_exists s d st m) s) d k).length =
      if k ∈ kinds ∧ (sensorRows s d k).length = 0 then 1
      else (sensorRows s d k).length := by
  induction kinds generalizing s with
  | nil => simp
  | cons k0 rest ih =>
    rw [List.foldl_cons, ih, ensure_sensorRows_count]
    by_cases h0 : k0 = k
    · subst h0
      by_cases hz : (sensorRows s d k0).length = 0
      · simp [hz]
      · simp [hz]
    · have h0' : ¬ k = k0 := fun h => h0 h.symm
      by_cases hm : k ∈ rest <;> by_cases hz : (sensorRows s d k).length = 0 <;>
        simp [h0, h0', hm, hz, List.mem_cons]

theorem capRegister_deviceRows_eq_ed (d : String) (p : Payload) (s : Sink) :
    deviceRows (capRegister d p s) d = deviceRows (ensure_device_exists s d p) d := by
  unfold capRegister deviceRows
  rw [foldKinds_devices_eq]

theorem capRegister_sensor_count (d : String) (p : Payload) (s : Sink) (k : String) :
    (sensorRows (capRegister d p s) d k).length =
      if k ∈ p.sensors ∧ (sensorRows s d k).length = 0 then 1
      else (sensorRows s d k).length := by
  unfold capRegister
  rw [foldKinds_count]
  have hse : sensorRows (ensure_device_exists s d p) d k = sensorRows s d k := by
    unfold sensorRows
    rw [ed_sensors_eq]
  rw [hse]

theorem capRegister_fresh (d : String) (p : Payload) (s0 : Sink)
    (hdev0 : deviceRows s0 d = [])
    (hsen0 : ∀ k ∈ p.sensors, sensorRows s0 d k = []) :
    deviceRows (capRegister d p s0) d =
      [⟨d, p.device_name, p.device_location, p.firmware_version⟩] ∧
    ∀ k ∈ p.sensors, (sensorRows (capRegister d p s0) d k).length = 1 := by
  constructor
  · rw [capRegister_deviceRows_eq_ed]
    exact ed_deviceRows_of_nil s0 d p hdev0
  · intro k hk
    rw [capRegister_sensor_count]
    rw [hsen0 k hk]
    simp [hk]

theorem capRegister_registered (d : String) (p : Payload) (s1 : Sink)
    (hdev1 : deviceRows s1 d = [⟨d, p.device_name, p.device_location, p.firmware_version⟩])
    (hcnt1 : ∀ k ∈ p.sensors, (sensorRows s1 d k).length = 1) :
    deviceRows (capRegister d p s1) d =
      [⟨d, p.device_name, p.device_location, p.firmware_version⟩] ∧
    ∀ k ∈ p.sensors, (sensorRows (capRegister d p s1) d k).length = 1 := by
  constructor
  · rw [capRegister_deviceRows_eq_ed]
    exact ed_deviceRows_of_one s1 d p _ hdev1
  · intro k hk
    rw [capRegister_sensor_count, hcnt1 k hk]
    simp

/-- C4: from a state in which the device and its kinds are unknown to every
sink, two identical capabilities announcements leave every sink with
exactly one `devices` row — carrying the announced name, location and
firmware — and exactly one `sensors` row per declared kind; both
invocations are total (registration is idempotent). -/
theorem registration_idempotent (c : Collector) (d : String) (p : Payload)
    (hpre : ∀ s ∈ c.sinks, deviceRows s d = [] ∧ ∀ k ∈ p.sensors, sensorRows s d k = []) :
    ∀ s2 ∈ (handle_capabilities (handle_capabilities c d p) d p).sinks,
      deviceRows s2 d = [⟨d, p.device_name, p.device_location, p.firmware_version⟩] ∧
      ∀ k ∈ p.sensors, (sensorRows s2 d k).length = 1 := by
  intro s2 hs2
  rw [handle_capabilities_sinks, handle_capabilities_sinks, List.map_map] at hs2
  obtain ⟨s0, hs0, rfl⟩ := List.mem_map.mp hs2
  obtain ⟨hdev0, hsen0⟩ := hpre s0 hs0
  obtain ⟨hdev1, hcnt1⟩ := capRegister_fresh d p s0 hdev0 hsen0
  exact capRegister_registered d p (capRegister d p s0) hdev1 hcnt1

/-- C4 (witness): the idempotence theorem at a fresh single-sink collector
and a payload declaring the kinds `temp` (twice) and `hum`. -/
theorem registration_idempotent_witness :
    deviceRows ((handle_capabilities (handle_capabilities (mkCollector [emptySink]) "dev"
        sampleCapPayload) "dev" sampleCapPayload).sinks.getD 0 emptySink) "dev" =
      [⟨"dev", some "esp32-lab", some "lab", some "1.2"⟩] ∧
    (sensorRows ((handle_capabilities (handle_capabilities (mkCollector [emptySink]) "dev"
        sampleCapPayload) "dev" sampleCapPayload).sinks.getD 0 emptySink) "dev" "temp").length
      = 1 :=
  have h := registration_idempotent (mkCollector [emptySink]) "dev" sampleCapPayload
    (by decide)
    ((handle_capabilities (handle_capabilities (mkCollector [emptySink]) "dev"
        sampleCapPayload) "dev" sampleCapPayload).sinks.getD 0 emptySink)
    (by decide)
  ⟨h.1, h.2 "temp" (by decide)⟩

theorem mkRows_sensor_id (ts : UTCTime) (sid : Nat) (vals : List (String × FieldData)) :
    ∀ mr ∈ mkRows ts sid vals, mr.sensor_id = sid := by
  intro mr hmr
  unfold mkRows at hmr
  rw [List.mem_filterMap] at hmr
  obtain ⟨fv, _, hfv⟩ := hmr
  cases hr : fv.2.reading with
  | none => rw [hr] at hfv; cases hfv
  | some v =>
    rw [hr] at hfv
    cases hfv
    rfl

theorem get_fst_sound (s : Sink) (d t : String) (i : Nat) (hok : cacheOK s)
    (hg : (get_sensor_id s d t).1 = some i) : ∃ r ∈ s.sensors, r.sensor_id = i := by
  unfold get_sensor_id at hg
  cases hc : assocLookup s.cache (cacheKey d t) with
  | some sid =>
    rw [hc] at hg
    obtain rfl : sid = i := by simpa using hg
    obtain ⟨d', t', _, hlk⟩ := hok _ _ hc
    obtain ⟨r, hrm, hid, _, _⟩ := storeLookup_mem _ _ _ _ hlk
    exact ⟨r, hrm, hid⟩
  | none =>
    rw [hc] at hg
    cases hsl : storeLookup s.sensors d t with
    | some sid =>
      rw [hsl] at hg
      obtain rfl : sid = i := by simpa using hg
      obtain ⟨r, hrm, hid, _, _⟩ := storeLookup_mem _ _ _ _ hsl
      exact ⟨r, hrm, hid⟩
    | none =>
      rw [hsl] at hg
      simp at hg

theorem ensure_fields (s : Sink) (d t : String) (m : List (String × Meta)) :
    (ensure_sensor_exists s d t m).measurements = s.measurements ∧
    (ensure_sensor_exists s d t m).failAppend = s.failAppend := by
  unfold ensure_sensor_exists
  split <;> exact ⟨rfl, rfl⟩

theorem mem_sensors_ensure (s : Sink) (d t : String) (m : List (String × Meta))
    (r : SensorRow) (h : r ∈ s.sensors) : r ∈ (ensure_sensor_exists s d t m).sensors := by
  unfold ensure_sensor_exists
  split
  · exact h
  · exact List.mem_append_left _ h

theorem get_snd_fields (s : Sink) (d t : String) :
    ((get_sensor_id s d t).2).sensors = s.sensors ∧
    ((get_sensor_id s d t).2).measurements = s.measurements ∧
    ((get_sensor_id s d t).2).failAppend = s.failAppend := by
  unfold get_sensor_id
  split
  · exact ⟨rfl, rfl, rfl⟩
  · split <;> exact ⟨rfl, rfl, rfl⟩

theorem sinkOK_ed (s : Sink) (d : String) (p : Payload) (h : sinkOK s) :
    sinkOK (ensure_device_exists s d p) := by
  obtain ⟨hc, hm⟩ := h
  unfold ensure_device_exists
  split
  · exact ⟨hc, hm⟩
  · exact ⟨hc, hm⟩

theorem sinkOK_ensure (s : Sink) (d t : String) (m : List (String × Meta))
    (h : sinkOK s) : sinkOK (ensure_sensor_exists s d t m) := by
  refine ⟨cacheOK_ensure s d t m h.1, ?_⟩
  intro mr hmr
  rw [(ensure_fields s d t m).1] at hmr
  obtain ⟨r, hr, hid⟩ := h.2 mr hmr
  exact ⟨r, mem_sensors_ensure s d t m r hr, hid⟩

theorem sinkOK_get (s : Sink) (d t : String) (h : sinkOK s) :
    sinkOK (get_sensor_id s d t).2 := by
  refine ⟨cacheOK_get s d t h.1, ?_⟩
  intro mr hmr
  rw [(get_snd_fields s d t).2.1] at hmr
  obtain ⟨r, hr, hid⟩ := h.2 mr hmr
  rw [(get_snd_fields s d t).1]
  exact ⟨r, hr, hid⟩

theorem store_decomp (s : Sink) (d t : String) (ts : UTCTime)
    (vals : List (String × FieldData)) :
    store_sensor_data s d t ts vals =
      (match resolveSid s d t with
       | some sid => appendMeasurements (resolveState s d t) sid ts vals
       | none => resolveState s d t) := by
  unfold store_sensor_data resolveSid resolveState
  rcases hg : get_sensor_id s d t with ⟨fst, s1⟩
  cases fst with
  | some sid => rfl
  | none =>
    dsimp only
    rcases hg2 : get_sensor_id (ensure_sensor_exists s1 d t []) d t with ⟨fst2, s3⟩
    cases fst2 with
    | some sid => rfl
    | none => rfl

theorem resolveState_sinkOK (s : Sink) (d t : String) (h : sinkOK s) :
    sinkOK (resolveState s d t) := by
  unfold resolveState
  rcases hg : get_sensor_id s d t with ⟨fst, s1⟩
  have hs1 : sinkOK s1 := by
    have h2 := sinkOK_get s d t h
    rw [hg] at h2
    exact h2
  cases fst with
  | some sid => exact hs1
  | none => exact sinkOK_get _ d t (sinkOK_ensure s1 d t [] hs1)

theorem resolveSid_sound (s : Sink) (d t : String) (sid : Nat) (h : sinkOK s)
    (hr : resolveSid s d t = some sid) :
    ∃ r ∈ (resolveState s d t).sensors, r.sensor_id = sid := by
  unfold resolveSid at hr
  unfold resolveState
  rcases hg : get_sensor_id s d t with ⟨fst, s1⟩
  rw [hg] at hr
  have hs1 : sinkOK s1 := by
    have h2 := sinkOK_get s d t h
    rw [hg] at h2
    exact h2
  have hsens1 : s1.sensors = s.sensors := by
    have h3 := (get_snd_fields s d t).1
    rw [hg] at h3
    exact h3
  cases fst with
  | some sid0 =>
    obtain rfl : sid0 = sid := by simpa using hr
    have hfst : (get_sensor_id s d t).1 = some sid0 := by rw [hg]
    obtain ⟨r, hrm, hid⟩ := get_fst_sound s d t sid0 h.1 hfst
    refine ⟨r, ?_, hid⟩
    show r ∈ s1.sensors
    rw [hsens1]
    exact hrm
  | none =>
    have hr2 : (get_sensor_id (ensure_sensor_exists s1 d t []) d t).1 = some sid := hr
    obtain ⟨r, hrm, hid⟩ := get_fst_sound (ensure_sensor_exists s1 d t []) d t sid
      (sinkOK_ensure s1 d t [] hs1).1 hr2
    rw [(get_snd_fields (ensure_sensor_exists s1 d t []) d t).1]
    exact ⟨r, hrm, hid⟩

theorem sinkOK_append (s : Sink) (sid : Nat) (ts : UTCTime)
    (vals : List (String × FieldData)) (h : sinkOK s)
    (hsid : ∃ r ∈ s.sensors, r.sensor_id = sid) :
    sinkOK (appendMeasurements s sid ts vals) := by
  unfold appendMeasurements
  split
  · exact h
  · refine ⟨h.1, ?_⟩
    intro mr hmr
    simp only [List.mem_append] at hmr
    rcases hmr with hold | hnew
    · exact h.2 mr hold
    · obtain ⟨r, hrm, hid⟩ := hsid
      exact ⟨r, hrm, by rw [hid, ← mkRows_sensor_id ts sid vals mr hnew]⟩

theorem sinkOK_store (s : Sink) (d t : String) (ts : UTCTime)
    (vals : List (String × FieldData)) (h : sinkOK s) :
    sinkOK (store_sensor_data s d t ts vals) := by
  rw [store_decomp]
  cases hr : resolveSid s d t with
  | none => exact resolveState_sinkOK s d t h
  | some sid =>
    exact sinkOK_append _ sid ts vals (resolveState_sinkOK s d t h)
      (resolveSid_sound s d t sid h hr)

theorem sinkOK_empty : sinkOK emptySink :=
  ⟨cacheOK_empty, fun m hm => by simp [emptySink] at hm⟩

theorem sinkOK_capRegister (d : String) (p : Payload) (s : Sink) (h : sinkOK s) :
    sinkOK (capRegister d p s) := by
  unfold capRegister
  have hfold : ∀ (kinds : List String) (s0 : Sink), sinkOK s0 →
      sinkOK (kinds.foldl (fun s st => ensure_sensor_exists s d st p.metadata) s0) := by
    intro kinds
    induction kinds with
    | nil => exact fun s0 h0 => h0
    | cons k0 rest ih =>
      intro s0 h0
      rw [List.foldl_cons]
      exact ih _ (sinkOK_ensure s0 d k0 p.metadata h0)
  exact hfold p.sensors _ (sinkOK_ed s d p h)

theorem sinksOK_handle_capabilities (c : Collector) (d : String) (p : Payload)
    (h : ∀ s ∈ c.sinks, sinkOK s) :
    ∀ s ∈ (handle_capabilities c d p).sinks, sinkOK s := by
  rw [handle_capabilities_sinks]
  intro s2 hs2
  obtain ⟨s0, hs0, rfl⟩ := List.mem_map.mp hs2
  exact sinkOK_capRegister d p s0 (h s0 hs0)

theorem sinksOK_handle_sensor_data (c : Collector) (d k : String) (p : Payload) (now : Int)
    (h : ∀ s ∈ c.sinks, sinkOK s) :
    ∀ s ∈ (handle_sensor_data c d k p now).sinks, sinkOK s := by
  unfold handle_sensor_data handle_sensor_dataE
  cases hn : normalizeTs p.timestamp now with
  | error e => exact h
  | ok ts =>
    cases hv : dataValues p.value with
    | error e => exact h
    | ok vals =>
      intro s2 hs2
      obtain ⟨s0, hs0, rfl⟩ := List.mem_map.mp hs2
      exact sinkOK_store s0 d k ts vals (h s0 hs0)

theorem sinksOK_on_message (c : Collector) (topic : String) (raw : Option Payload)
    (now : Int) (h : ∀ s ∈ c.sinks, sinkOK s) :
    ∀ s ∈ ((on_message c topic raw now).1).sinks, sinkOK s := by
  unfold on_message on_messageE
  cases hr : route topic raw with
  | capabilities d p => exact sinksOK_handle_capabilities c d p h
  | sensorData d k p => exact sinksOK_handle_sensor_data c d k p now h
  | status dd p =>
    dsimp only
    cases hs : handle_status p now with
    | ok u => exact h
    | error e => exact h
  | error dd p =>
    dsimp only
    cases he : handle_error p now with
    | ok l => exact h
    | error e => exact h
  | dropped r =>
    dsimp only
    by_cases h1 : (r == "json-decode-error") = true
    · rw [if_pos h1]; exact h
    · rw [if_neg h1]
      by_cases h2 : (r == "index-error") = true
      · rw [if_pos h2]; exact h
      · rw [if_neg h2]; exact h

theorem sinksOK_processMessages (msgs : List (String × Option Payload)) (c : Collector)
    (now : Int) (h : ∀ s ∈ c.sinks, sinkOK s) :
    ∀ s ∈ (processMessages c msgs now).sinks, sinkOK s := by
  induction msgs generalizing c with
  | nil => exact h
  | cons mg rest ih =>
    unfold processMessages
    rw [List.foldl_cons]
    exact ih _ (sinksOK_on_message c mg.1 mg.2 now h)

theorem ed_any_self (s : Sink) (d : String) (p : Payload) :
    ((ensure_device_exists s d p).devices.any (fun r => r.device_id == d)) = true := by
  unfold ensure_device_exists
  by_cases hany : (s.devices.any (fun r => r.device_id == d)) = true
  · rw [if_pos hany]
    dsimp only
    obtain ⟨r, hr, hpr⟩ := List.any_eq_true.mp hany
    refine List.any_eq_true.mpr ⟨if r.device_id == d then
      ⟨d, p.device_name, p.device_location, p.firmware_version⟩ else r, List.mem_map_of_mem _ hr, ?_⟩
    rw [if_pos hpr]
    simp
  · rw [if_neg hany]
    dsimp only
    rw [List.any_append]
    simp

/-- C3 (counterexample): the claim fails as stated.  One data message from
the never-registered device `ghost` makes the auto-create path insert a
Sensor row owned by `ghost` and a Measurement row referencing it, while
the `devices` table stays empty: a Sensor (and Measurement) whose owning
Device was never registered. -/
theorem ghost_device_unreferenced :
    ((ghostCollector.sinks.getD 0 emptySink).sensors.map SensorRow.device_id = ["ghost"]) ∧
    ((ghostCollector.sinks.getD 0 emptySink).devices = []) ∧
    ((ghostCollector.sinks.getD 0 emptySink).measurements.map MeasurementRow.sensor_id
      = [1]) := by
  decide

/-- C3 (amended): from sinks satisfying the cache/measurement invariant,
any sequence of handled messages preserves referential integrity of
measurements — every Measurement row references an existing Sensor row —
and a capabilities announcement always registers its Device row before the
Sensor rows of the same handling; but (per the counterexample) the
auto-create path of data handling can create Sensor and Measurement rows
whose owning Device was never registered, since the sensor insert never
checks the `devices` table. -/
theorem referential_integrity_amended (c : Collector) (msgs : List (String × Option Payload))
    (now : Int) (d : String) (p : Payload) (h : ∀ s ∈ c.sinks, sinkOK s) :
    (∀ s ∈ (processMessages c msgs now).sinks, measOK s) ∧
    (∀ s ∈ (handle_capabilities c d p).sinks,
      s.devices.any (fun r => r.device_id == d) = true) := by
  constructor
  · intro s hs
    exact (sinksOK_processMessages msgs c now h s hs).2
  · rw [handle_capabilities_sinks]
    intro s2 hs2
    obtain ⟨s0, hs0, rfl⟩ := List.mem_map.mp hs2
    unfold capRegister
    rw [foldKinds_devices_eq]
    exact ed_any_self s0 d p

/-- C3 (witness): the amended theorem at a fresh single-sink collector, one
data message, and one capabilities announcement. -/
theorem referential_integrity_witness :
    measOK ((processMessages (mkCollector [emptySink])
      [("devices/dev1/sensors/temp/data", some samplePayload)] 0).sinks.getD 0 emptySink) ∧
    (((handle_capabilities (mkCollector [emptySink]) "dev1" sampleCapPayload).sinks.getD 0
        emptySink).devices.any (fun r => r.device_id == "dev1") = true) :=
  have hT := referential_integrity_amended (mkCollector [emptySink])
    [("devices/dev1/sensors/temp/data", some samplePayload)] 0 "dev1" sampleCapPayload
    (fun s hs => by rw [show s = emptySink by simpa [mkCollector] using hs]; exact sinkOK_empty)
  ⟨hT.1 _ (by decide), hT.2 _ (by decide)⟩

end SensorCollector
